import Mathlib

/-!
Verification development for the graceful-restart core (caddy/restart.go).

The Go code is shallowly embedded as a pure Lean function. All interaction
with the operating system (pipe creation, fork-exec, the gob encoder write,
the blocking read of the signal pipe, and the external Stop/Start registry
operations) is resolved by an oracle record `OS` holding the outcome the
kernel or the external collaborator would produce for each effectful call.
One execution of `Restart` on a process state and an oracle yields the
returned error, the final process state, an ordered trace of the effectful
events performed, the descriptor table and payload that were built, and the
open/closed status of the four pipe descriptors created during the attempt.
-/

namespace Caddy

/-- Go errors are modelled by their message string; `none` is a nil error. -/
abbrev GoError := String

/-- Modelled from the spec: the ConfigurationInput capability (Input interface,
defined outside src/) exposing configuration bytes and a path. -/
structure Input where
  body : List Nat
  path : String
  deriving DecidableEq, Repr

/-- CaddyfileInput represents a Caddyfile as input (concrete Input variant). -/
structure CaddyfileInput where
  Filepath : String
  Contents : List Nat
  deriving DecidableEq, Repr

/-- Body returns c.Contents. -/
def CaddyfileInput.Body (c : CaddyfileInput) : List Nat := c.Contents

/-- Path returns c.Filepath. -/
def CaddyfileInput.Path (c : CaddyfileInput) : String := c.Filepath

/-- View of a CaddyfileInput through the Input capability. -/
def CaddyfileInput.toInput (c : CaddyfileInput) : Input := ⟨c.Contents, c.Filepath⟩

/-- Modelled from the spec: one entry of the external Server Registry, a
listener with its bind address and the OS file descriptor of its socket
(the servers slice and s.ListenerFd(), defined outside src/). -/
structure Server where
  Addr : String
  ListenerFd : Nat
  deriving DecidableEq, Repr

/-- caddyfileGob maps bind address to index of the file descriptor in the
Files array passed to the child process, and carries the caddyfile bytes.
The Go map is modelled as an association list with Go map assignment
semantics (insertion overwrites an existing key, otherwise appends). -/
structure caddyfileGob where
  ListenerFds : List (String × Nat)
  Caddyfile : List Nat
  deriving DecidableEq, Repr

/-- Go map assignment m[k] = v: overwrite the entry for k if present,
otherwise add a new entry. -/
def mapAssign (m : List (String × Nat)) (k : String) (v : Nat) : List (String × Nat) :=
  if (m.map Prod.fst).contains k then
    m.map (fun p => if p.1 = k then (k, v) else p)
  else
    m ++ [(k, v)]

/-- Go map read m[k], as an Option. -/
def mapLookup (m : List (String × Nat)) (k : String) : Option Nat :=
  (m.find? (fun p => p.1 == k)).map Prod.snd

/-- State of the calling process visible to Restart: the registered servers,
whether they are serving, the protected current-configuration slot, the
value of the CADDY_RESTART environment variable (empty when unset), and
os.Args. -/
structure ProcState where
  servers : List Server
  serving : Bool
  caddyfile : Input
  restartEnv : String
  args : List String
  deriving DecidableEq, Repr

/-- The effectful steps Restart can perform, in the order they occur. -/
inductive Event where
  | lockCaddyfileMu
  | readCaddyfileSlot
  | unlockCaddyfileMu
  | setEnvRestart
  | createPipe
  | lockServersMu
  | unlockServersMu
  | forkExec
  | writePayload
  | closeWPipe
  | closeSigWPipe
  | readSignal
  | stop
  | start
  deriving DecidableEq, Repr

/-- Open/closed status, at return time, of the four pipe descriptors created
by a restart attempt (config pipe read/write end, signal pipe read/write
end); false when the descriptor was never created or has been closed. -/
structure PipeState where
  rpipeOpen : Bool
  wpipeOpen : Bool
  sigrpipeOpen : Bool
  sigwpipeOpen : Bool
  deriving DecidableEq, Repr

/-- Oracle fixing the outcome of each effectful call Restart makes: the
platform branch, the parent's stdout/stderr descriptors, the two os.Pipe
calls (each yielding a read-end/write-end pair of descriptors), the
syscall.ForkExec call, the gob encoder write to the config pipe, the
ioutil.ReadAll of the signal pipe, and the external Stop/Start operations. -/
structure OS where
  goosWindows : Bool
  stdoutFd : Nat
  stderrFd : Nat
  pipe1 : Except GoError (Nat × Nat)
  pipe2 : Except GoError (Nat × Nat)
  forkExec : Except GoError Nat
  encodeErr : Option GoError
  readAll : Except GoError (List Nat)
  stopErr : Option GoError
  startErr : Option GoError
  startedServers : List Server
  deriving Repr

/-- Everything observable about one execution of Restart: the returned
error (none is success), the final process state, the trace of effectful
events in order, the descriptor table handed to ForkExec and the payload
built for the child (none when execution returned before they were built),
the status of the four pipe descriptors, and the configuration Start was
invoked with (none when Start was never called). -/
structure RestartResult where
  err : Option GoError
  state : ProcState
  trace : List Event
  fds : Option (List Nat)
  gob : Option caddyfileGob
  pipes : PipeState
  startArg : Option Input
  deriving DecidableEq, Repr

/-- Modelled from the spec: the registry StopAll operation (Stop, defined
outside src/). On success every server is shut down, leaving the process
with no registered listeners and not serving; on failure the error is
returned. -/
def Stop (os : OS) (st : ProcState) : Option GoError × ProcState :=
  match os.stopErr with
  | some e => (some e, st)
  | none => (none, { st with servers := [], serving := false })

/-- Modelled from the spec: the registry StartAll operation (Start, defined
outside src/). On success fresh servers for the given configuration are
running; on failure the error is returned and no servers come up. -/
def Start (os : OS) (_cfg : Input) (st : ProcState) : Option GoError × ProcState :=
  match os.startErr with
  | some e => (some e, st)
  | none => (none, { st with servers := os.startedServers, serving := true })

/-- The defensive os.Args fixup at the top of the POSIX branch: if len
(os.Args) == 0, set os.Args to a singleton empty string. -/
def fixArgs (st : ProcState) : ProcState :=
  if st.args = [] then { st with args := [""] } else st

/-- Modelled from the spec: the IncompleteRestart error value
(incompleteRestartErr, defined outside src/) returned when the child fails
to answer on the signal pipe. -/
def incompleteRestartErr : GoError := "incomplete restart"

/-- The loop over the servers slice: for i, s := range servers, append
s.ListenerFd() to the fds slice and assign ListenerFds[s.Addr] = 4 + i. -/
def listenerLoop : Nat → List Server → List Nat × List (String × Nat) →
    List Nat × List (String × Nat)
  | _i, [], acc => acc
  | i, s :: rest, (fds, m) =>
      listenerLoop (i + 1) rest (fds ++ [s.ListenerFd], mapAssign m s.Addr (4 + i))

/-- All pipe descriptors closed or never created. -/
def pipesNone : PipeState := ⟨false, false, false, false⟩

/-- The body of Restart once the effective configuration has been chosen;
tr0 is the trace of the events performed while choosing it. This is a
direct transliteration of restart.go after the nil-Caddyfile check. -/
def restartWith (os : OS) (st0 : ProcState) (cfg : Input) (tr0 : List Event) :
    RestartResult :=
  if os.goosWindows then
    let r1 := Stop os st0
    match r1.1 with
    | some e => ⟨some e, r1.2, tr0 ++ [Event.stop], none, none, pipesNone, none⟩
    | none =>
      let r2 := Start os cfg r1.2
      ⟨r2.1, r2.2, tr0 ++ [Event.stop, Event.start], none, none, pipesNone, some cfg⟩
  else
    let st1 := fixArgs st0
    let st2 := { st1 with restartEnv := "true" }
    let tr1 := tr0 ++ [Event.setEnvRestart]
    match os.pipe1 with
    | .error e => ⟨some e, st2, tr1 ++ [Event.createPipe], none, none, pipesNone, none⟩
    | .ok rw =>
      match os.pipe2 with
      | .error e =>
          ⟨some e, st2, tr1 ++ [Event.createPipe, Event.createPipe], none, none,
            ⟨true, true, false, false⟩, none⟩
      | .ok sigrw =>
        let tr2 := tr1 ++ [Event.createPipe, Event.createPipe]
        let res := listenerLoop 0 st2.servers
          ([rw.1, os.stdoutFd, os.stderrFd, sigrw.2], [])
        let fds := res.1
        let g : caddyfileGob := ⟨res.2, cfg.body⟩
        let tr3 := tr2 ++ [Event.lockServersMu, Event.unlockServersMu]
        match os.forkExec with
        | .error e =>
            ⟨some e, st2, tr3 ++ [Event.forkExec], some fds, some g,
              ⟨true, true, true, true⟩, none⟩
        | .ok _pid =>
          match os.encodeErr with
          | some e =>
              ⟨some e, st2, tr3 ++ [Event.forkExec, Event.writePayload], some fds,
                some g, ⟨true, true, true, true⟩, none⟩
          | none =>
            let tr4 := tr3 ++ [Event.forkExec, Event.writePayload, Event.closeWPipe,
              Event.closeSigWPipe, Event.readSignal]
            let p2 : PipeState := ⟨true, false, true, false⟩
            match os.readAll with
            | .error _e =>
                ⟨some incompleteRestartErr, st2, tr4, some fds, some g, p2, none⟩
            | .ok answer =>
              if answer = [] then
                ⟨some incompleteRestartErr, st2, tr4, some fds, some g, p2, none⟩
              else
                let r := Stop os st2
                ⟨r.1, r.2, tr4 ++ [Event.stop], some fds, some g, p2, none⟩

/-- Restart restarts the entire application; gracefully with zero downtime
on a POSIX-compatible system, or forcefully on Windows. If newCaddyfile is
nil, the current protected Caddyfile configuration is read under
caddyfileMu and used. -/
def Restart (os : OS) (st0 : ProcState) (newCaddyfile : Option Input) : RestartResult :=
  match newCaddyfile with
  | none =>
      restartWith os st0 st0.caddyfile
        [Event.lockCaddyfileMu, Event.readCaddyfileSlot, Event.unlockCaddyfileMu]
  | some c => restartWith os st0 c []

/-- isRestart returns whether this process is, according to env variables,
a fork as part of a graceful restart. -/
def isRestart (st : ProcState) : Bool := st.restartEnv == "true"

@[simp] theorem fixArgs_servers (st : ProcState) : (fixArgs st).servers = st.servers := by
  unfold fixArgs; split <;> rfl

@[simp] theorem fixArgs_serving (st : ProcState) : (fixArgs st).serving = st.serving := by
  unfold fixArgs; split <;> rfl

@[simp] theorem fixArgs_caddyfile (st : ProcState) : (fixArgs st).caddyfile = st.caddyfile := by
  unfold fixArgs; split <;> rfl

@[simp] theorem fixArgs_restartEnv (st : ProcState) :
    (fixArgs st).restartEnv = st.restartEnv := by
  unfold fixArgs; split <;> rfl

/-- The four effectful steps whose relative order the graceful protocol
fixes: launching the child, writing the payload, reading the signal pipe,
stopping the old servers. -/
def isKeyEvent : Event → Bool
  | Event.forkExec => true
  | Event.writePayload => true
  | Event.readSignal => true
  | Event.stop => true
  | _ => false

/-- Shared sample state for concrete evaluations: two servers, serving. -/
def sampleState : ProcState :=
  ⟨[⟨"0.0.0.0:80", 7⟩, ⟨"0.0.0.0:443", 8⟩], true, ⟨[1, 2, 3], "Caddyfile"⟩, "", ["caddy"]⟩

/-- Shared sample replacement configuration. -/
def sampleInput : Input := ⟨[9, 9], "new-caddyfile"⟩

/-- C1: on the POSIX path, when the signal-pipe read errors or yields zero
bytes, Restart returns incompleteRestartErr, never performs the stop step,
and leaves the listener set and serving state of the calling process
exactly as they were. -/
theorem restart_read_failure_preserves_servers (os : OS) (st0 : ProcState)
    (arg : Option Input) (rw srw : Nat × Nat) (pid : Nat) (er : GoError)
    (hg : os.goosWindows = false) (hp1 : os.pipe1 = Except.ok rw)
    (hp2 : os.pipe2 = Except.ok srw) (hf : os.forkExec = Except.ok pid)
    (he : os.encodeErr = none)
    (hr : os.readAll = Except.error er ∨ os.readAll = Except.ok []) :
    (Restart os st0 arg).err = some incompleteRestartErr ∧
    Event.stop ∉ (Restart os st0 arg).trace ∧
    (Restart os st0 arg).state.servers = st0.servers ∧
    (Restart os st0 arg).state.serving = st0.serving := by
  rcases arg with _ | c <;> rcases hr with h | h <;>
    simp [Restart, restartWith, hg, hp1, hp2, hf, he, h]

theorem restart_read_failure_preserves_servers_witness :
    (Restart ⟨false, 1, 2, Except.ok (3, 4), Except.ok (5, 6), Except.ok 99, none,
        Except.ok [], none, none, []⟩ sampleState (some sampleInput)).err =
      some incompleteRestartErr ∧
    Event.stop ∉ (Restart ⟨false, 1, 2, Except.ok (3, 4), Except.ok (5, 6), Except.ok 99,
        none, Except.ok [], none, none, []⟩ sampleState (some sampleInput)).trace ∧
    (Restart ⟨false, 1, 2, Except.ok (3, 4), Except.ok (5, 6), Except.ok 99, none,
        Except.ok [], none, none, []⟩ sampleState (some sampleInput)).state.servers =
      sampleState.servers ∧
    (Restart ⟨false, 1, 2, Except.ok (3, 4), Except.ok (5, 6), Except.ok 99, none,
        Except.ok [], none, none, []⟩ sampleState (some sampleInput)).state.serving =
      sampleState.serving :=
  restart_read_failure_preserves_servers _ sampleState (some sampleInput) (3, 4) (5, 6)
    99 "" rfl rfl rfl rfl rfl (Or.inr rfl)

/-- C2: every POSIX execution performs the key steps as a prefix of the
total order fork-exec, write payload, read signal, stop; and the stop step
occurs only after the signal-pipe read returned non-empty content. -/
theorem restart_posix_event_order (os : OS) (st0 : ProcState) (arg : Option Input)
    (hg : os.goosWindows = false) :
    ((Restart os st0 arg).trace.filter isKeyEvent) <+:
      [Event.forkExec, Event.writePayload, Event.readSignal, Event.stop] ∧
    (Event.stop ∈ (Restart os st0 arg).trace →
      ∃ ans, os.readAll = Except.ok ans ∧ ans ≠ []) := by
  have main : ∀ cfg tr0, tr0.filter isKeyEvent = [] → Event.stop ∉ tr0 →
      ((restartWith os st0 cfg tr0).trace.filter isKeyEvent) <+:
        [Event.forkExec, Event.writePayload, Event.readSignal, Event.stop] ∧
      (Event.stop ∈ (restartWith os st0 cfg tr0).trace →
        ∃ ans, os.readAll = Except.ok ans ∧ ans ≠ []) := by
    intro cfg tr0 h0 hs
    unfold restartWith
    cases h1 : os.pipe1 with
    | error e =>
        constructor <;> simp [hg, h0, hs, List.filter_append, isKeyEvent]
    | ok rw =>
      cases h2 : os.pipe2 with
      | error e =>
          constructor <;> simp [hg, h0, hs, List.filter_append, isKeyEvent]
      | ok srw =>
        cases h3 : os.forkExec with
        | error e =>
            constructor <;>
              simp [hg, h0, hs, List.filter_append, isKeyEvent, List.IsPrefix]
        | ok pid =>
          cases h4 : os.encodeErr with
          | some e =>
              constructor <;>
                simp [hg, h0, hs, List.filter_append, isKeyEvent, List.IsPrefix]
          | none =>
            cases h5 : os.readAll with
            | error e =>
                constructor <;>
                  simp [hg, h0, hs, List.filter_append, isKeyEvent, List.IsPrefix]
            | ok ans =>
              by_cases h6 : ans = []
              · constructor <;>
                  simp [hg, h0, hs, h6, List.filter_append, isKeyEvent, List.IsPrefix]
              · refine ⟨?_, fun _ => ⟨ans, rfl, h6⟩⟩
                simp [hg, h0, hs, h6, List.filter_append, isKeyEvent, List.IsPrefix]
  rcases arg with _ | c <;>
    · unfold Restart
      exact main _ _ (by decide) (by decide)

/-- Closed form of the association list the server loop builds from index i
onward when every inserted address is fresh. -/
def expectedAssoc : Nat → List Server → List (String × Nat)
  | _, [] => []
  | i, s :: rest => (s.Addr, 4 + i) :: expectedAssoc (i + 1) rest

theorem mapAssign_not_mem (m : List (String × Nat)) (k : String) (v : Nat)
    (h : k ∉ m.map Prod.fst) : mapAssign m k v = m ++ [(k, v)] := by
  unfold mapAssign
  rw [if_neg]
  simpa using h

theorem listenerLoop_fst (ss : List Server) : ∀ (i : Nat) (fds : List Nat)
    (m : List (String × Nat)),
    (listenerLoop i ss (fds, m)).1 = fds ++ ss.map Server.ListenerFd := by
  induction ss with
  | nil => intro i fds m; simp [listenerLoop]
  | cons s rest ih => intro i fds m; simp [listenerLoop, ih]

theorem listenerLoop_snd (ss : List Server) : ∀ (i : Nat) (fds : List Nat)
    (m : List (String × Nat)), (ss.map Server.Addr).Nodup →
    (∀ s ∈ ss, s.Addr ∉ m.map Prod.fst) →
    (listenerLoop i ss (fds, m)).2 = m ++ expectedAssoc i ss := by
  induction ss with
  | nil => intro i fds m _ _; simp [listenerLoop, expectedAssoc]
  | cons s rest ih =>
    intro i fds m hnd hdisj
    have hfresh : s.Addr ∉ m.map Prod.fst := hdisj s (by simp)
    have hnd2 : (rest.map Server.Addr).Nodup := (List.nodup_cons.mp (by simpa using hnd)).2
    have hsnot : s.Addr ∉ rest.map Server.Addr :=
      (List.nodup_cons.mp (by simpa using hnd)).1
    rw [listenerLoop, mapAssign_not_mem _ _ _ hfresh,
      ih (i + 1) _ _ hnd2 ?_]
    · simp [expectedAssoc]
    · intro t ht
      have h1 : t.Addr ∉ m.map Prod.fst := hdisj t (by simp [ht])
      have h2 : t.Addr ≠ s.Addr := by
        intro hcontra
        exact hsnot (hcontra ▸ List.mem_map_of_mem Server.Addr ht)
      simp [h1, h2]

theorem expectedAssoc_lookup (ss : List Server) : ∀ (i j : Nat) (hj : j < ss.length),
    (ss.map Server.Addr).Nodup →
    mapLookup (expectedAssoc i ss) (ss.get ⟨j, hj⟩).Addr = some (4 + (i + j)) := by
  induction ss with
  | nil => intro i j hj; exact absurd hj (by simp)
  | cons s rest ih =>
    intro i j hj hnd
    have hsnot : s.Addr ∉ rest.map Server.Addr :=
      (List.nodup_cons.mp (by simpa using hnd)).1
    have hnd2 : (rest.map Server.Addr).Nodup := (List.nodup_cons.mp (by simpa using hnd)).2
    cases j with
    | zero => simp [expectedAssoc, mapLookup]
    | succ j =>
      have hj2 : j < rest.length := by simpa using Nat.lt_of_succ_lt_succ hj
      have hmem : (rest.get ⟨j, hj2⟩).Addr ∈ rest.map Server.Addr :=
        List.mem_map_of_mem Server.Addr (rest.get_mem j hj2)
      have hne : (s.Addr == (rest.get ⟨j, hj2⟩).Addr) = false := by
        simp only [beq_eq_false_iff_ne]
        intro hcontra
        exact hsnot (hcontra ▸ hmem)
      have hget : ((s :: rest).get ⟨j + 1, hj⟩) = rest.get ⟨j, hj2⟩ := rfl
      have := ih (i + 1) j hj2 hnd2
      simp only [expectedAssoc, mapLookup, hget, List.find?_cons, hne] at this ⊢
      rw [this]
      simp only [Option.some.injEq]
      omega

theorem expectedAssoc_snd (ss : List Server) : ∀ i : Nat,
    (expectedAssoc i ss).map Prod.snd = List.range' (4 + i) ss.length := by
  induction ss with
  | nil => intro i; simp [expectedAssoc]
  | cons s rest ih =>
    intro i
    simp only [expectedAssoc, List.map_cons, List.length_cons, List.range'_succ]
    rw [ih (i + 1), show 4 + (i + 1) = 4 + i + 1 from by omega]

/-- On the POSIX path with both pipes created, the descriptor table and the
payload recorded by restartWith are exactly what the server loop builds,
regardless of how the rest of the attempt goes. -/
theorem restartWith_fds_gob (os : OS) (st0 : ProcState) (cfg : Input)
    (tr0 : List Event) (rw srw : Nat × Nat)
    (hg : os.goosWindows = false) (hp1 : os.pipe1 = Except.ok rw)
    (hp2 : os.pipe2 = Except.ok srw) :
    (restartWith os st0 cfg tr0).fds =
      some ((listenerLoop 0 st0.servers
        ([rw.1, os.stdoutFd, os.stderrFd, srw.2], [])).1) ∧
    (restartWith os st0 cfg tr0).gob =
      some ⟨(listenerLoop 0 st0.servers
        ([rw.1, os.stdoutFd, os.stderrFd, srw.2], [])).2, cfg.body⟩ := by
  unfold restartWith
  cases h3 : os.forkExec with
  | error e => simp [hg, hp1, hp2]
  | ok pid =>
    cases h4 : os.encodeErr with
    | some e => simp [hg, hp1, hp2]
    | none =>
      cases h5 : os.readAll with
      | error e => simp [hg, hp1, hp2]
      | ok ans =>
        by_cases h6 : ans = [] <;> simp [hg, hp1, hp2, h6]

/-- C2 witness at a concrete successful handover. -/
theorem restart_posix_event_order_witness :
    ((Restart ⟨false, 1, 2, Except.ok (3, 4), Except.ok (5, 6), Except.ok 99, none,
        Except.ok [79, 75], none, none, []⟩ sampleState none).trace.filter isKeyEvent) <+:
      [Event.forkExec, Event.writePayload, Event.readSignal, Event.stop] ∧
    (Event.stop ∈ (Restart ⟨false, 1, 2, Except.ok (3, 4), Except.ok (5, 6), Except.ok 99,
        none, Except.ok [79, 75], none, none, []⟩ sampleState none).trace →
      ∃ ans, (OS.mk false 1 2 (Except.ok (3, 4)) (Except.ok (5, 6)) (Except.ok 99) none
        (Except.ok [79, 75]) none none []).readAll = Except.ok ans ∧ ans ≠ []) :=
  restart_posix_event_order _ sampleState none rfl

/-- C3: with both pipes created on the POSIX path, the descriptor table is
exactly config-pipe read end, stdout, stderr, signal-pipe write end,
followed by the listener descriptors in registry order, and the payload
maps the address of listener i to absolute position 4 + i. -/
theorem restart_descriptor_table_layout (os : OS) (st0 : ProcState) (arg : Option Input)
    (rw srw : Nat × Nat)
    (hg : os.goosWindows = false) (hp1 : os.pipe1 = Except.ok rw)
    (hp2 : os.pipe2 = Except.ok srw)
    (hnd : (st0.servers.map Server.Addr).Nodup) :
    (Restart os st0 arg).fds =
      some ([rw.1, os.stdoutFd, os.stderrFd, srw.2] ++
        st0.servers.map Server.ListenerFd) ∧
    ∃ g, (Restart os st0 arg).gob = some g ∧
      ∀ (j : Nat) (hj : j < st0.servers.length),
        mapLookup g.ListenerFds ((st0.servers.get ⟨j, hj⟩).Addr) = some (4 + j) := by
  have hfst := listenerLoop_fst st0.servers 0 [rw.1, os.stdoutFd, os.stderrFd, srw.2] []
  have hsnd := listenerLoop_snd st0.servers 0 [rw.1, os.stdoutFd, os.stderrFd, srw.2] []
    hnd (by intro s _; simp)
  rcases arg with _ | c <;>
  · unfold Restart
    obtain ⟨hfds, hgob⟩ := restartWith_fds_gob os st0 _ _ rw srw hg hp1 hp2
    refine ⟨by rw [hfds, hfst], ⟨_, hgob, ?_⟩⟩
    intro j hj
    have hlook := expectedAssoc_lookup st0.servers 0 j hj hnd
    simp only [hsnd, List.nil_append]
    simpa using hlook

theorem restart_descriptor_table_layout_witness :
    (Restart ⟨false, 1, 2, Except.ok (3, 4), Except.ok (5, 6), Except.ok 99, none,
        Except.ok [79, 75], none, none, []⟩ sampleState none).fds =
      some ([3, 1, 2, 6] ++ sampleState.servers.map Server.ListenerFd) ∧
    ∃ g, (Restart ⟨false, 1, 2, Except.ok (3, 4), Except.ok (5, 6), Except.ok 99, none,
        Except.ok [79, 75], none, none, []⟩ sampleState none).gob = some g ∧
      ∀ (j : Nat) (hj : j < sampleState.servers.length),
        mapLookup g.ListenerFds ((sampleState.servers.get ⟨j, hj⟩).Addr) = some (4 + j) :=
  restart_descriptor_table_layout _ sampleState none (3, 4) (5, 6) rfl rfl rfl
    (by decide)

/-- C4: with both pipes created on the POSIX path and N registered
listeners, the descriptor table has length N + 4 and the payload offsets
are exactly 4, 5, ..., 3 + N, with no gaps and no duplicates. -/
theorem restart_descriptor_table_offsets (os : OS) (st0 : ProcState) (arg : Option Input)
    (rw srw : Nat × Nat)
    (hg : os.goosWindows = false) (hp1 : os.pipe1 = Except.ok rw)
    (hp2 : os.pipe2 = Except.ok srw)
    (hnd : (st0.servers.map Server.Addr).Nodup) :
    (∃ l, (Restart os st0 arg).fds = some l ∧
      l.length = st0.servers.length + 4) ∧
    (∃ g, (Restart os st0 arg).gob = some g ∧
      (∀ v : Nat, v ∈ g.ListenerFds.map Prod.snd ↔
        4 ≤ v ∧ v < 4 + st0.servers.length) ∧
      (g.ListenerFds.map Prod.snd).Nodup) := by
  have hfst := listenerLoop_fst st0.servers 0 [rw.1, os.stdoutFd, os.stderrFd, srw.2] []
  have hsnd := listenerLoop_snd st0.servers 0 [rw.1, os.stdoutFd, os.stderrFd, srw.2] []
    hnd (by intro s _; simp)
  have hvals := expectedAssoc_snd st0.servers 0
  rcases arg with _ | c <;>
  · unfold Restart
    obtain ⟨hfds, hgob⟩ := restartWith_fds_gob os st0 _ _ rw srw hg hp1 hp2
    refine ⟨⟨_, hfds, ?_⟩, ⟨_, hgob, ?_, ?_⟩⟩
    · rw [hfst]
      simp only [List.length_append, List.length_map, List.length_cons, List.length_nil]
      omega
    · intro v
      simp only [hsnd, List.nil_append, hvals, List.mem_range'_1]
    · simp only [hsnd, List.nil_append, hvals]
      exact List.nodup_range' _ _

theorem restart_descriptor_table_offsets_witness :
    (∃ l, (Restart ⟨false, 1, 2, Except.ok (3, 4), Except.ok (5, 6), Except.ok 99, none,
        Except.ok [79, 75], none, none, []⟩ sampleState none).fds = some l ∧
      l.length = sampleState.servers.length + 4) ∧
    (∃ g, (Restart ⟨false, 1, 2, Except.ok (3, 4), Except.ok (5, 6), Except.ok 99, none,
        Except.ok [79, 75], none, none, []⟩ sampleState none).gob = some g ∧
      (∀ v : Nat, v ∈ g.ListenerFds.map Prod.snd ↔
        4 ≤ v ∧ v < 4 + sampleState.servers.length) ∧
      (g.ListenerFds.map Prod.snd).Nodup) :=
  restart_descriptor_table_offsets _ sampleState none (3, 4) (5, 6) rfl rfl rfl
    (by decide)

/-- C5 (amended part): when fork-exec fails on the POSIX path, Restart
returns that launch error at once, the servers are untouched and still
serving, the stop step never happens — but the four pipe descriptors
created for the attempt all remain open rather than being closed. -/
theorem restart_launch_failure_servers_intact (os : OS) (st0 : ProcState)
    (arg : Option Input) (rw srw : Nat × Nat) (e : GoError)
    (hg : os.goosWindows = false) (hp1 : os.pipe1 = Except.ok rw)
    (hp2 : os.pipe2 = Except.ok srw) (hf : os.forkExec = Except.error e) :
    (Restart os st0 arg).err = some e ∧
    (Restart os st0 arg).state.servers = st0.servers ∧
    (Restart os st0 arg).state.serving = st0.serving ∧
    Event.stop ∉ (Restart os st0 arg).trace ∧
    (Restart os st0 arg).pipes = ⟨true, true, true, true⟩ := by
  rcases arg with _ | c <;> simp [Restart, restartWith, hg, hp1, hp2, hf]

theorem restart_launch_failure_servers_intact_witness :
    (Restart ⟨false, 1, 2, Except.ok (3, 4), Except.ok (5, 6),
        Except.error "fork refused", none, Except.ok [], none, none, []⟩
      sampleState (some sampleInput)).err = some "fork refused" ∧
    (Restart ⟨false, 1, 2, Except.ok (3, 4), Except.ok (5, 6),
        Except.error "fork refused", none, Except.ok [], none, none, []⟩
      sampleState (some sampleInput)).state.servers = sampleState.servers ∧
    (Restart ⟨false, 1, 2, Except.ok (3, 4), Except.ok (5, 6),
        Except.error "fork refused", none, Except.ok [], none, none, []⟩
      sampleState (some sampleInput)).state.serving = sampleState.serving ∧
    Event.stop ∉ (Restart ⟨false, 1, 2, Except.ok (3, 4), Except.ok (5, 6),
        Except.error "fork refused", none, Except.ok [], none, none, []⟩
      sampleState (some sampleInput)).trace ∧
    (Restart ⟨false, 1, 2, Except.ok (3, 4), Except.ok (5, 6),
        Except.error "fork refused", none, Except.ok [], none, none, []⟩
      sampleState (some sampleInput)).pipes = ⟨true, true, true, true⟩ :=
  restart_launch_failure_servers_intact _ sampleState (some sampleInput) (3, 4) (5, 6)
    "fork refused" rfl rfl rfl rfl

/-- C5 counterexample: at a concrete launch failure all four pipe
descriptors are still open when Restart returns, refuting the part of the
claim that says they are all closed. -/
theorem restart_launch_failure_pipes_counterexample :
    (Restart ⟨false, 1, 2, Except.ok (3, 4), Except.ok (5, 6),
        Except.error "fork refused", none, Except.ok [], none, none, []⟩
      sampleState (some sampleInput)).err = some "fork refused" ∧
    (Restart ⟨false, 1, 2, Except.ok (3, 4), Except.ok (5, 6),
        Except.error "fork refused", none, Except.ok [], none, none, []⟩
      sampleState (some sampleInput)).pipes = ⟨true, true, true, true⟩ ∧
    ¬ (Restart ⟨false, 1, 2, Except.ok (3, 4), Except.ok (5, 6),
        Except.error "fork refused", none, Except.ok [], none, none, []⟩
      sampleState (some sampleInput)).pipes = pipesNone := by
  refine ⟨rfl, rfl, by decide⟩

/-- The two registry operations of the fallback branch, for trace filtering. -/
def isStopOrStart : Event → Bool
  | Event.stop => true
  | Event.start => true
  | _ => false

/-- C6: on the fallback (windows) branch Restart performs Stop and then
Start with the effective configuration; a failure of either step is
surfaced to the caller; when Stop succeeds but Start fails the call
returns with no servers running. -/
theorem restart_windows_stop_start (os : OS) (st0 : ProcState) (arg : Option Input)
    (hg : os.goosWindows = true) :
    (os.stopErr = none →
      (Restart os st0 arg).startArg = some (arg.getD st0.caddyfile) ∧
      (Restart os st0 arg).trace.filter isStopOrStart = [Event.stop, Event.start]) ∧
    (∀ e, os.stopErr = some e →
      (Restart os st0 arg).err = some e ∧
      Event.start ∉ (Restart os st0 arg).trace ∧
      (Restart os st0 arg).startArg = none) ∧
    (∀ e, os.stopErr = none → os.startErr = some e →
      (Restart os st0 arg).err = some e ∧
      (Restart os st0 arg).state.servers = [] ∧
      (Restart os st0 arg).state.serving = false) := by
  rcases arg with _ | c <;> cases hstop : os.stopErr with
  | none =>
    refine ⟨?_, ?_, ?_⟩
    · intro _
      simp [Restart, restartWith, Stop, Start, hg, hstop, isStopOrStart,
        List.filter_append]
    · intro e he
      simp at he
    · intro e _ hse
      simp [Restart, restartWith, Stop, Start, hg, hstop, hse]
  | some e0 =>
    refine ⟨?_, ?_, ?_⟩
    · intro h
      simp at h
    · intro e he
      injection he with he2
      subst he2
      simp [Restart, restartWith, Stop, hg, hstop]
    · intro e h
      simp at h

theorem restart_windows_stop_start_witness :
    ((OS.mk true 1 2 (Except.ok (3, 4)) (Except.ok (5, 6)) (Except.ok 99) none
        (Except.ok []) none (some "bind failed") []).stopErr = none →
      (Restart ⟨true, 1, 2, Except.ok (3, 4), Except.ok (5, 6), Except.ok 99, none,
          Except.ok [], none, some "bind failed", []⟩ sampleState none).startArg =
        some ((none : Option Input).getD sampleState.caddyfile) ∧
      (Restart ⟨true, 1, 2, Except.ok (3, 4), Except.ok (5, 6), Except.ok 99, none,
          Except.ok [], none, some "bind failed", []⟩ sampleState none).trace.filter
        isStopOrStart = [Event.stop, Event.start]) ∧
    (∀ e, (OS.mk true 1 2 (Except.ok (3, 4)) (Except.ok (5, 6)) (Except.ok 99) none
        (Except.ok []) none (some "bind failed") []).stopErr = some e →
      (Restart ⟨true, 1, 2, Except.ok (3, 4), Except.ok (5, 6), Except.ok 99, none,
          Except.ok [], none, some "bind failed", []⟩ sampleState none).err = some e ∧
      Event.start ∉ (Restart ⟨true, 1, 2, Except.ok (3, 4), Except.ok (5, 6),
          Except.ok 99, none, Except.ok [], none, some "bind failed", []⟩
        sampleState none).trace ∧
      (Restart ⟨true, 1, 2, Except.ok (3, 4), Except.ok (5, 6), Except.ok 99, none,
          Except.ok [], none, some "bind failed", []⟩ sampleState none).startArg =
        none) ∧
    (∀ e, (OS.mk true 1 2 (Except.ok (3, 4)) (Except.ok (5, 6)) (Except.ok 99) none
        (Except.ok []) none (some "bind failed") []).stopErr = none →
      (OS.mk true 1 2 (Except.ok (3, 4)) (Except.ok (5, 6)) (Except.ok 99) none
        (Except.ok []) none (some "bind failed") []).startErr = some e →
      (Restart ⟨true, 1, 2, Except.ok (3, 4), Except.ok (5, 6), Except.ok 99, none,
          Except.ok [], none, some "bind failed", []⟩ sampleState none).err = some e ∧
      (Restart ⟨true, 1, 2, Except.ok (3, 4), Except.ok (5, 6), Except.ok 99, none,
          Except.ok [], none, some "bind failed", []⟩ sampleState none).state.servers =
        [] ∧
      (Restart ⟨true, 1, 2, Except.ok (3, 4), Except.ok (5, 6), Except.ok 99, none,
          Except.ok [], none, some "bind failed", []⟩ sampleState none).state.serving =
        false) :=
  restart_windows_stop_start _ sampleState none rfl

/-- C7 (amended part): on the POSIX path a non-empty signal-pipe read makes
Restart invoke Stop on the current servers and return exactly Stop's
result, so the call reports success precisely when stopping succeeds. -/
theorem restart_nonempty_read_stops (os : OS) (st0 : ProcState) (arg : Option Input)
    (rw srw : Nat × Nat) (pid : Nat) (ans : List Nat)
    (hg : os.goosWindows = false) (hp1 : os.pipe1 = Except.ok rw)
    (hp2 : os.pipe2 = Except.ok srw) (hf : os.forkExec = Except.ok pid)
    (he : os.encodeErr = none) (hr : os.readAll = Except.ok ans) (hne : ans ≠ []) :
    Event.stop ∈ (Restart os st0 arg).trace ∧
    (Restart os st0 arg).err = os.stopErr ∧
    (os.stopErr = none →
      (Restart os st0 arg).state.servers = [] ∧
      (Restart os st0 arg).state.serving = false) := by
  rcases arg with _ | c <;> cases hstop : os.stopErr <;>
    simp [Restart, restartWith, Stop, hg, hp1, hp2, hf, he, hr, hne, hstop]

theorem restart_nonempty_read_stops_witness :
    Event.stop ∈ (Restart ⟨false, 1, 2, Except.ok (3, 4), Except.ok (5, 6),
        Except.ok 99, none, Except.ok [79, 75], none, none, []⟩
      sampleState none).trace ∧
    (Restart ⟨false, 1, 2, Except.ok (3, 4), Except.ok (5, 6), Except.ok 99, none,
        Except.ok [79, 75], none, none, []⟩ sampleState none).err =
      (OS.mk false 1 2 (Except.ok (3, 4)) (Except.ok (5, 6)) (Except.ok 99) none
        (Except.ok [79, 75]) none none []).stopErr ∧
    ((OS.mk false 1 2 (Except.ok (3, 4)) (Except.ok (5, 6)) (Except.ok 99) none
        (Except.ok [79, 75]) none none []).stopErr = none →
      (Restart ⟨false, 1, 2, Except.ok (3, 4), Except.ok (5, 6), Except.ok 99, none,
          Except.ok [79, 75], none, none, []⟩ sampleState none).state.servers = [] ∧
      (Restart ⟨false, 1, 2, Except.ok (3, 4), Except.ok (5, 6), Except.ok 99, none,
          Except.ok [79, 75], none, none, []⟩ sampleState none).state.serving =
        false) :=
  restart_nonempty_read_stops _ sampleState none (3, 4) (5, 6) 99 [79, 75]
    rfl rfl rfl rfl rfl rfl (by decide)

/-- C7 counterexample: a concrete execution whose signal-pipe read yields
the non-empty content OK but where stopping the old servers fails, so
Restart returns that stop error rather than the Success outcome the claim
promises. -/
theorem restart_nonempty_read_not_success_counterexample :
    (∃ ans, (OS.mk false 1 2 (Except.ok (3, 4)) (Except.ok (5, 6)) (Except.ok 99)
        none (Except.ok [79, 75]) (some "stop failed") none []).readAll =
      Except.ok ans ∧ ans ≠ []) ∧
    Event.stop ∈ (Restart ⟨false, 1, 2, Except.ok (3, 4), Except.ok (5, 6),
        Except.ok 99, none, Except.ok [79, 75], some "stop failed", none, []⟩
      sampleState none).trace ∧
    (Restart ⟨false, 1, 2, Except.ok (3, 4), Except.ok (5, 6), Except.ok 99, none,
        Except.ok [79, 75], some "stop failed", none, []⟩ sampleState none).err =
      some "stop failed" ∧
    ¬ (Restart ⟨false, 1, 2, Except.ok (3, 4), Except.ok (5, 6), Except.ok 99, none,
        Except.ok [79, 75], some "stop failed", none, []⟩ sampleState none).err =
      none := by
  refine ⟨⟨[79, 75], rfl, by decide⟩, by decide, rfl, by decide⟩

/-- Every execution of restartWith only appends events after the given
prefix trace, and the appended part never reads the configuration slot. -/
theorem restartWith_trace (os : OS) (st0 : ProcState) (cfg : Input) (tr0 : List Event) :
    ∃ tr, (restartWith os st0 cfg tr0).trace = tr0 ++ tr ∧
      Event.readCaddyfileSlot ∉ tr := by
  unfold restartWith
  by_cases hg : os.goosWindows
  · cases hstop : os.stopErr with
    | some e =>
        exact ⟨[Event.stop], by simp [hg, Stop, hstop], by decide⟩
    | none =>
        exact ⟨[Event.stop, Event.start], by simp [hg, Stop, hstop], by decide⟩
  · cases h1 : os.pipe1 with
    | error e =>
        exact ⟨[Event.setEnvRestart, Event.createPipe], by simp [hg], by decide⟩
    | ok rw =>
      cases h2 : os.pipe2 with
      | error e =>
          exact ⟨[Event.setEnvRestart, Event.createPipe, Event.createPipe],
            by simp [hg], by decide⟩
      | ok srw =>
        cases h3 : os.forkExec with
        | error e =>
            exact ⟨[Event.setEnvRestart, Event.createPipe, Event.createPipe,
              Event.lockServersMu, Event.unlockServersMu, Event.forkExec],
              by simp [hg], by decide⟩
        | ok pid =>
          cases h4 : os.encodeErr with
          | some e =>
              exact ⟨[Event.setEnvRestart, Event.createPipe, Event.createPipe,
                Event.lockServersMu, Event.unlockServersMu, Event.forkExec,
                Event.writePayload], by simp [hg], by decide⟩
          | none =>
            cases h5 : os.readAll with
            | error e =>
                exact ⟨[Event.setEnvRestart, Event.createPipe, Event.createPipe,
                  Event.lockServersMu, Event.unlockServersMu, Event.forkExec,
                  Event.writePayload, Event.closeWPipe, Event.closeSigWPipe,
                  Event.readSignal], by simp [hg], by decide⟩
            | ok ans =>
              by_cases h6 : ans = []
              · exact ⟨[Event.setEnvRestart, Event.createPipe, Event.createPipe,
                  Event.lockServersMu, Event.unlockServersMu, Event.forkExec,
                  Event.writePayload, Event.closeWPipe, Event.closeSigWPipe,
                  Event.readSignal], by simp [hg, h6], by decide⟩
              · exact ⟨[Event.setEnvRestart, Event.createPipe, Event.createPipe,
                  Event.lockServersMu, Event.unlockServersMu, Event.forkExec,
                  Event.writePayload, Event.closeWPipe, Event.closeSigWPipe,
                  Event.readSignal, Event.stop], by simp [hg, h6], by decide⟩

/-- C8: called with nil configuration, Restart reads the protected
caddyfile slot between locking and unlocking its mutex and the payload
carries that configuration's bytes; called with a non-nil argument, the
protected slot is never read and the argument's bytes are used. -/
theorem restart_nil_config_uses_protected_slot (os : OS) (st0 : ProcState)
    (arg : Option Input) (rw srw : Nat × Nat)
    (hg : os.goosWindows = false) (hp1 : os.pipe1 = Except.ok rw)
    (hp2 : os.pipe2 = Except.ok srw) :
    (arg = none →
      (∃ tr, (Restart os st0 arg).trace =
        [Event.lockCaddyfileMu, Event.readCaddyfileSlot,
          Event.unlockCaddyfileMu] ++ tr ∧
        Event.readCaddyfileSlot ∉ tr) ∧
      ∃ g, (Restart os st0 arg).gob = some g ∧
        g.Caddyfile = st0.caddyfile.body) ∧
    (∀ c, arg = some c →
      Event.readCaddyfileSlot ∉ (Restart os st0 arg).trace ∧
      ∃ g, (Restart os st0 arg).gob = some g ∧ g.Caddyfile = c.body) := by
  constructor
  · rintro rfl
    constructor
    · exact restartWith_trace os st0 st0.caddyfile _
    · obtain ⟨hfds, hgob⟩ := restartWith_fds_gob os st0 st0.caddyfile
        [Event.lockCaddyfileMu, Event.readCaddyfileSlot, Event.unlockCaddyfileMu]
        rw srw hg hp1 hp2
      exact ⟨_, hgob, rfl⟩
  · rintro c rfl
    constructor
    · obtain ⟨tr, htr, hmem⟩ := restartWith_trace os st0 c []
      have heq : (Restart os st0 (some c)).trace = tr := by
        simpa [Restart] using htr
      rw [heq]
      exact hmem
    · obtain ⟨hfds, hgob⟩ := restartWith_fds_gob os st0 c [] rw srw hg hp1 hp2
      exact ⟨_, hgob, rfl⟩

theorem restart_nil_config_uses_protected_slot_witness :
    ((none : Option Input) = none →
      (∃ tr, (Restart ⟨false, 1, 2, Except.ok (3, 4), Except.ok (5, 6), Except.ok 99,
          none, Except.ok [79, 75], none, none, []⟩ sampleState none).trace =
        [Event.lockCaddyfileMu, Event.readCaddyfileSlot,
          Event.unlockCaddyfileMu] ++ tr ∧
        Event.readCaddyfileSlot ∉ tr) ∧
      ∃ g, (Restart ⟨false, 1, 2, Except.ok (3, 4), Except.ok (5, 6), Except.ok 99,
          none, Except.ok [79, 75], none, none, []⟩ sampleState none).gob = some g ∧
        g.Caddyfile = sampleState.caddyfile.body) ∧
    (∀ c, (none : Option Input) = some c →
      Event.readCaddyfileSlot ∉ (Restart ⟨false, 1, 2, Except.ok (3, 4),
          Except.ok (5, 6), Except.ok 99, none, Except.ok [79, 75], none, none, []⟩
        sampleState none).trace ∧
      ∃ g, (Restart ⟨false, 1, 2, Except.ok (3, 4), Except.ok (5, 6), Except.ok 99,
          none, Except.ok [79, 75], none, none, []⟩ sampleState none).gob = some g ∧
        g.Caddyfile = c.body) :=
  restart_nil_config_uses_protected_slot _ sampleState none (3, 4) (5, 6) rfl rfl rfl

/-- C9: when the gob encode of the payload fails after a successful launch,
Restart returns that raw error without stopping any server, without
reading the signal pipe, and with the config pipe's write end still open. -/
theorem restart_encode_failure_raw_error (os : OS) (st0 : ProcState)
    (arg : Option Input) (rw srw : Nat × Nat) (pid : Nat) (e : GoError)
    (hg : os.goosWindows = false) (hp1 : os.pipe1 = Except.ok rw)
    (hp2 : os.pipe2 = Except.ok srw) (hf : os.forkExec = Except.ok pid)
    (he : os.encodeErr = some e) :
    (Restart os st0 arg).err = some e ∧
    Event.stop ∉ (Restart os st0 arg).trace ∧
    Event.readSignal ∉ (Restart os st0 arg).trace ∧
    (Restart os st0 arg).pipes.wpipeOpen = true ∧
    (Restart os st0 arg).state.servers = st0.servers ∧
    (Restart os st0 arg).state.serving = st0.serving := by
  rcases arg with _ | c <;> simp [Restart, restartWith, hg, hp1, hp2, hf, he]

theorem restart_encode_failure_raw_error_witness :
    (Restart ⟨false, 1, 2, Except.ok (3, 4), Except.ok (5, 6), Except.ok 99,
        some "broken pipe", Except.ok [], none, none, []⟩
      sampleState (some sampleInput)).err = some "broken pipe" ∧
    Event.stop ∉ (Restart ⟨false, 1, 2, Except.ok (3, 4), Except.ok (5, 6),
        Except.ok 99, some "broken pipe", Except.ok [], none, none, []⟩
      sampleState (some sampleInput)).trace ∧
    Event.readSignal ∉ (Restart ⟨false, 1, 2, Except.ok (3, 4), Except.ok (5, 6),
        Except.ok 99, some "broken pipe", Except.ok [], none, none, []⟩
      sampleState (some sampleInput)).trace ∧
    (Restart ⟨false, 1, 2, Except.ok (3, 4), Except.ok (5, 6), Except.ok 99,
        some "broken pipe", Except.ok [], none, none, []⟩
      sampleState (some sampleInput)).pipes.wpipeOpen = true ∧
    (Restart ⟨false, 1, 2, Except.ok (3, 4), Except.ok (5, 6), Except.ok 99,
        some "broken pipe", Except.ok [], none, none, []⟩
      sampleState (some sampleInput)).state.servers = sampleState.servers ∧
    (Restart ⟨false, 1, 2, Except.ok (3, 4), Except.ok (5, 6), Except.ok 99,
        some "broken pipe", Except.ok [], none, none, []⟩
      sampleState (some sampleInput)).state.serving = sampleState.serving :=
  restart_encode_failure_raw_error _ sampleState (some sampleInput) (3, 4) (5, 6) 99
    "broken pipe" rfl rfl rfl rfl rfl

/-- The setup and launch steps of the POSIX branch, for trace filtering. -/
def isSetupOrLaunch : Event → Bool
  | Event.setEnvRestart => true
  | Event.createPipe => true
  | Event.forkExec => true
  | _ => false

/-- C10: every POSIX execution sets the CADDY_RESTART flag before any pipe
is created or any child launched, the flag is still set when Restart
returns whatever the outcome, and isRestart then reports true. -/
theorem restart_env_flag_set_before_pipes (os : OS) (st0 : ProcState)
    (arg : Option Input) (hg : os.goosWindows = false) :
    (Restart os st0 arg).state.restartEnv = "true" ∧
    isRestart (Restart os st0 arg).state = true ∧
    ∃ l, (Restart os st0 arg).trace.filter isSetupOrLaunch =
      Event.setEnvRestart :: l := by
  have main : ∀ cfg tr0, tr0.filter isSetupOrLaunch = [] →
      (restartWith os st0 cfg tr0).state.restartEnv = "true" ∧
      isRestart (restartWith os st0 cfg tr0).state = true ∧
      ∃ l, (restartWith os st0 cfg tr0).trace.filter isSetupOrLaunch =
        Event.setEnvRestart :: l := by
    intro cfg tr0 h0
    unfold restartWith
    cases h1 : os.pipe1 with
    | error e =>
        refine ⟨by simp [hg], by simp [hg, isRestart], ⟨[Event.createPipe], ?_⟩⟩
        simp [hg, List.filter_append, h0, isSetupOrLaunch]
    | ok rw =>
      cases h2 : os.pipe2 with
      | error e =>
          refine ⟨by simp [hg], by simp [hg, isRestart],
            ⟨[Event.createPipe, Event.createPipe], ?_⟩⟩
          simp [hg, List.filter_append, h0, isSetupOrLaunch]
      | ok srw =>
        cases h3 : os.forkExec with
        | error e =>
            refine ⟨by simp [hg], by simp [hg, isRestart],
              ⟨[Event.createPipe, Event.createPipe, Event.forkExec], ?_⟩⟩
            simp [hg, List.filter_append, h0, isSetupOrLaunch]
        | ok pid =>
          cases h4 : os.encodeErr with
          | some e =>
              refine ⟨by simp [hg], by simp [hg, isRestart],
                ⟨[Event.createPipe, Event.createPipe, Event.forkExec], ?_⟩⟩
              simp [hg, List.filter_append, h0, isSetupOrLaunch]
          | none =>
            cases h5 : os.readAll with
            | error e =>
                refine ⟨by simp [hg], by simp [hg, isRestart],
                  ⟨[Event.createPipe, Event.createPipe, Event.forkExec], ?_⟩⟩
                simp [hg, List.filter_append, h0, isSetupOrLaunch]
            | ok ans =>
              by_cases h6 : ans = []
              · refine ⟨by simp [hg, h6], by simp [hg, h6, isRestart],
                  ⟨[Event.createPipe, Event.createPipe, Event.forkExec], ?_⟩⟩
                simp [hg, h6, List.filter_append, h0, isSetupOrLaunch]
              · cases hstop : os.stopErr with
                | some e =>
                    refine ⟨by simp [hg, h6, Stop, hstop],
                      by simp [hg, h6, Stop, hstop, isRestart],
                      ⟨[Event.createPipe, Event.createPipe, Event.forkExec], ?_⟩⟩
                    simp [hg, h6, List.filter_append, h0, isSetupOrLaunch]
                | none =>
                    refine ⟨by simp [hg, h6, Stop, hstop],
                      by simp [hg, h6, Stop, hstop, isRestart],
                      ⟨[Event.createPipe, Event.createPipe, Event.forkExec], ?_⟩⟩
                    simp [hg, h6, List.filter_append, h0, isSetupOrLaunch]
  rcases arg with _ | c <;> exact main _ _ (by decide)

theorem restart_env_flag_set_before_pipes_witness :
    (Restart ⟨false, 1, 2, Except.error "pipe limit", Except.ok (5, 6), Except.ok 99,
        none, Except.ok [], none, none, []⟩ sampleState none).state.restartEnv =
      "true" ∧
    isRestart (Restart ⟨false, 1, 2, Except.error "pipe limit", Except.ok (5, 6),
        Except.ok 99, none, Except.ok [], none, none, []⟩ sampleState none).state =
      true ∧
    ∃ l, (Restart ⟨false, 1, 2, Except.error "pipe limit", Except.ok (5, 6),
        Except.ok 99, none, Except.ok [], none, none, []⟩
      sampleState none).trace.filter isSetupOrLaunch = Event.setEnvRestart :: l :=
  restart_env_flag_set_before_pipes _ sampleState none rfl

end Caddy
